import Mathlib

/-!
Shallow embedding of `src/scikits/image/util/uintmath.py`: saturating
unsigned-8-bit pixel arithmetic (`is_uint8_like`, `add_uint`,
`subtract_uint`, `multiply_uint`, `divide_uint`) under the Python 2 /
NumPy 1.x semantics the module was written for.

Operands are modelled by `PyVal`:
* `intS n`   — a Python `int` scalar (arbitrary precision, exact);
* `boolS b`  — a Python `bool` scalar (`isinstance(b, int)` holds; it
  behaves as 0/1 in arithmetic);
* `floatS q` — a Python `float` scalar; `is_uint8_like` only inspects its
  tag and order, so the value is modelled exactly by a rational;
* `u8A xs`   — a NumPy array of dtype `uint8`: elementwise arithmetic with
  a scalar that fits the dtype stays in `uint8` and wraps modulo 256;
* `i64A xs`  — a NumPy array of a wide integer dtype (such as the default
  `int64` produced by `np.arange`): at the magnitudes reachable here
  (all values in `[0, 65025]`) its arithmetic is exact;
* `floatA qs` — a NumPy array of floating dtype.

Arrays are modelled as flat lists: every operation in the module is
elementwise, so higher-dimensional shape is irrelevant to the claims.

Semantics notes used throughout, all from Python 2 / NumPy 1.x:
* `np.uint8(x)` on an integer reduces modulo 256 (`u8` below); applied to
  an array it casts elementwise.
* Python 2 `/` on non-negative `int`s and NumPy `/` on integer arrays are
  floor division.
* Dividing an integer *array* by zero does not raise: each affected
  element becomes 0 and only a `RuntimeWarning` is emitted (`npdiv`
  below).  Dividing a Python `int` scalar by a zero scalar raises
  `ZeroDivisionError`.
* A failing `assert` raises `AssertionError`; evaluating the undefined
  name `npint8` (a typo in the source for `np.uint8`) raises `NameError`,
  as does `return c` when no branch assigned `c`.
* Falling off the end of a function returns `None`; this is modelled by
  `Except.ok none`, i.e. "no result value".
-/

namespace Uintmath

/-- The module constant `MIN_UINT = 0`. -/
def MIN_UINT : Int := 0

/-- The module constant `MAX_UINT = 255`. -/
def MAX_UINT : Int := 255

/-- Model of the Python values the module's functions are applied to. -/
inductive PyVal where
  | intS (n : Int)
  | boolS (b : Bool)
  | floatS (q : ℚ)
  | u8A (xs : List Int)
  | i64A (xs : List Int)
  | floatA (qs : List ℚ)
deriving DecidableEq

/-- Model of the exceptions the module can raise. -/
inductive PyErr where
  | assertionError
  | nameError (missing : String)
  | zeroDivisionError
  | valueError
deriving DecidableEq

/-- Result of a call: an exception, or `Option PyVal` where `none` models
Python's `None` (the function fell off the end without a `return`). -/
abbrev PyRes := Except PyErr (Option PyVal)

instance : DecidableEq PyRes := fun x y =>
  match x, y with
  | .ok a, .ok b =>
      match decEq a b with
      | isTrue h => isTrue (by rw [h])
      | isFalse h => isFalse (fun hc => h (by cases hc; rfl))
  | .error a, .error b =>
      match decEq a b with
      | isTrue h => isTrue (by rw [h])
      | isFalse h => isFalse (fun hc => h (by cases hc; rfl))
  | .ok _, .error _ => isFalse (fun hc => by cases hc)
  | .error _, .ok _ => isFalse (fun hc => by cases hc)

/-- `np.any(a < MIN_UINT)`: some element (or the scalar itself) is `< 0`.
For a `bool`, `True < 0` and `False < 0` are both false. -/
def anyLtMin : PyVal → Bool
  | .intS n => decide (n < MIN_UINT)
  | .boolS _ => false
  | .floatS q => decide (q < 0)
  | .u8A xs | .i64A xs => xs.any (fun x => decide (x < MIN_UINT))
  | .floatA qs => qs.any (fun q => decide (q < 0))

/-- `np.any(a > MAX_UINT)`: some element (or the scalar itself) is `> 255`. -/
def anyGtMax : PyVal → Bool
  | .intS n => decide (n > MAX_UINT)
  | .boolS _ => false
  | .floatS q => decide (q > 255)
  | .u8A xs | .i64A xs => xs.any (fun x => decide (x > MAX_UINT))
  | .floatA qs => qs.any (fun q => decide (q > 255))

/-- `hasattr(a, 'dtype') and np.issubdtype(a.dtype, np.integer)`:
true exactly for NumPy arrays of integer dtype. -/
def hasIntDtype : PyVal → Bool
  | .u8A _ | .i64A _ => true
  | _ => false

/-- `isinstance(a, int)`: true for Python `int` and `bool` scalars. -/
def isPyInt : PyVal → Bool
  | .intS _ | .boolS _ => true
  | _ => false

/-- `is_uint8_like(a)` from `uintmath.py`, line for line:

    if np.any(a < MIN_UINT) or np.any(a > MAX_UINT): return False
    if hasattr(a, 'dtype') and np.issubdtype(a.dtype, np.integer): return True
    if isinstance(a, int): return True
    else: return False
-/
def is_uint8_like (a : PyVal) : Bool :=
  if anyLtMin a || anyGtMax a then false
  else if hasIntDtype a then true
  else if isPyInt a then true
  else false

/-- `np.isscalar`: true for Python/NumPy scalars, false for arrays. -/
def isscalar : PyVal → Bool
  | .intS _ | .boolS _ | .floatS _ => true
  | _ => false

/-- The integer value of a scalar operand; a `bool` counts as 0/1.
The `floatS` and array cases are unreachable wherever this is used: those
uses sit behind the `is_uint8_like` assertion and an `isscalar` test. -/
def scalarVal : PyVal → Int
  | .intS n => n
  | .boolS b => if b then 1 else 0
  | _ => 0

/-- `np.uint8(x)` / storing into a `uint8` array: reduce modulo 256. -/
def u8 (n : Int) : Int := n % 256

/-- `np.clip(x, lo, hi)` on one element: `min (max x lo) hi`. -/
def clip (x lo hi : Int) : Int := min (max x lo) hi

/-- NumPy integer-array division: floor division, except that division by
zero produces 0 (with only a `RuntimeWarning`, which is not an error). -/
def npdiv (p q : Int) : Int := if q = 0 then 0 else p / q

/-- One arm of `add_uint`: `np.uint8(np.clip(a, MIN_UINT, MAX_UINT - b) + b)`
with `b` already a scalar of value `bv` and `a` the other operand.  For a
`uint8` array the clip stays within dtype and the sum is at most 255, so
wrapping coincides with the final cast; for a wide array the arithmetic is
exact and the cast wraps — in both cases each element is
`u8 (clip x 0 (255 - bv) + bv)`.  The float arms are unreachable: floats
never pass the `is_uint8_like` assertion. -/
def addScalarTo (bv : Int) (a : PyVal) : Option PyVal :=
  match a with
  | .intS n => some (.intS (u8 (clip n MIN_UINT (MAX_UINT - bv) + bv)))
  | .boolS b => some (.intS (u8 (clip (if b then 1 else 0) MIN_UINT (MAX_UINT - bv) + bv)))
  | .u8A xs | .i64A xs => some (.u8A (xs.map fun x => u8 (clip x MIN_UINT (MAX_UINT - bv) + bv)))
  | _ => none

/-- `add_uint(a, b)` from `uintmath.py`:

    assert is_uint8_like(a) and is_uint8_like(b)
    if np.isscalar(b):
        return np.uint8(np.clip(a, MIN_UINT, MAX_UINT - b) + b)
    elif np.isscalar(a):
        return np.uint8(np.clip(b, MIN_UINT, MAX_UINT - a) + a)

When neither operand is a scalar no branch fires and the function returns
`None` (`Except.ok none`). -/
def add_uint (a b : PyVal) : PyRes :=
  if is_uint8_like a && is_uint8_like b then
    if isscalar b then .ok (addScalarTo (scalarVal b) a)
    else if isscalar a then .ok (addScalarTo (scalarVal a) b)
    else .ok none
  else .error .assertionError

/-- First arm of `subtract_uint`:
`np.uint8(np.clip(a, MIN_UINT + b, MAX_UINT) - b)` with `b` a scalar of
value `bv`.  Each element is `u8 (clip x bv 255 - bv)`; the difference is
non-negative, so `uint8` and wide arrays agree.  Float arms unreachable. -/
def subScalarFrom (bv : Int) (a : PyVal) : Option PyVal :=
  match a with
  | .intS n => some (.intS (u8 (clip n (MIN_UINT + bv) MAX_UINT - bv)))
  | .boolS b => some (.intS (u8 (clip (if b then 1 else 0) (MIN_UINT + bv) MAX_UINT - bv)))
  | .u8A xs | .i64A xs => some (.u8A (xs.map fun x => u8 (clip x (MIN_UINT + bv) MAX_UINT - bv)))
  | _ => none

/-- Second arm of `subtract_uint`:
`np.uint8(a - np.clip(b, MIN_UINT, MIN_UINT + a))` with `a` a scalar of
value `av`.  Each element is `u8 (av - clip x 0 av)`, again non-negative
before the cast.  Float arms unreachable. -/
def subFromScalar (av : Int) (b : PyVal) : Option PyVal :=
  match b with
  | .intS n => some (.intS (u8 (av - clip n MIN_UINT (MIN_UINT + av))))
  | .boolS c => some (.intS (u8 (av - clip (if c then 1 else 0) MIN_UINT (MIN_UINT + av))))
  | .u8A xs | .i64A xs => some (.u8A (xs.map fun x => u8 (av - clip x MIN_UINT (MIN_UINT + av))))
  | _ => none

/-- `subtract_uint(a, b)` from `uintmath.py`:

    assert is_uint8_like(a) and is_uint8_like(b)
    if np.isscalar(b):
        return np.uint8(np.clip(a, MIN_UINT + b, MAX_UINT) - b)
    elif np.isscalar(a):
        return np.uint8(a - np.clip(b, MIN_UINT,  MIN_UINT + a))

Again both-arrays falls through to `None`. -/
def subtract_uint (a b : PyVal) : PyRes :=
  if is_uint8_like a && is_uint8_like b then
    if isscalar b then .ok (subScalarFrom (scalarVal b) a)
    else if isscalar a then .ok (subFromScalar (scalarVal a) b)
    else .ok none
  else .error .assertionError

/-- The array branch of `multiply_uint`, for array elements `xs` and a
scalar multiplier of value `bv`:

    maxval = np.floor(MAX_UINT / b)
    mask = a <= maxval
    c = np.empty(a.shape, dtype=np.uint8)
    c[~mask] = MAX_UINT
    c[mask] = a[mask] * b

`MAX_UINT / b` with a zero Python scalar raises `ZeroDivisionError`.
Comparing an integer with `np.floor(255 / b)` is comparing with
`255 / b` floored, and each store into the `uint8` array `c` casts. -/
def mulArrayScalar (xs : List Int) (bv : Int) : PyRes :=
  if bv = 0 then .error .zeroDivisionError
  else
    .ok (some (.u8A (xs.map fun x =>
      if x ≤ MAX_UINT / bv then u8 (x * bv) else u8 MAX_UINT)))

/-- `multiply_uint(a, b)` from `uintmath.py`:

    assert is_uint8_like(a) and is_uint8_like(b)
    if np.isscalar(a) and np.isscalar(b):
        maxval = np.floor(MAX_UINT / b)
        if a > maxval:
            return np.uint8(MAX_UINT)
        return npint8(a * b)
    if np.isscalar(a):
        a, b = b, a
    if np.isscalar(b):
        ...array branch, assigning c...
    return c

`npint8` is an undefined name (a typo for `np.uint8`), so the
non-saturating scalar branch raises `NameError`; with both operands
arrays no branch assigns `c`, so `return c` raises `NameError` as well;
and a zero scalar multiplier raises `ZeroDivisionError` in
`MAX_UINT / b`.  The catch-all arm is unreachable (after the swap the
first component is a non-float array).  The source performs
`if np.isscalar(a): a, b = b, a` and then tests `np.isscalar(b)` once;
since at most one operand is a scalar at that point, that is the same as
the two symmetric branches written out here. -/
def multiply_uint (a b : PyVal) : PyRes :=
  if is_uint8_like a && is_uint8_like b then
    if isscalar a && isscalar b then
      if scalarVal b = 0 then .error .zeroDivisionError
      else if scalarVal a > MAX_UINT / scalarVal b then .ok (some (.intS (u8 MAX_UINT)))
      else .error (.nameError "npint8")
    else if isscalar a then
      match b with
      | .u8A xs | .i64A xs => mulArrayScalar xs (scalarVal a)
      | _ => .error (.nameError "c")
    else if isscalar b then
      match a with
      | .u8A xs | .i64A xs => mulArrayScalar xs (scalarVal b)
      | _ => .error (.nameError "c")
    else .error (.nameError "c")
  else .error .assertionError

/-- `divide_uint(a, b)` from `uintmath.py`:

    assert is_uint8_like(a) and is_uint8_like(b)
    return np.uint8((a + b / 2) / b)

Case split on the operand kinds (floats are unreachable behind the
assertion):
* scalar / scalar: exact Python 2 integer arithmetic; a zero divisor
  raises `ZeroDivisionError`;
* when a `uint8` array meets a scalar (or another `uint8` array), the sum
  `a + b / 2` is computed in `uint8` and wraps modulo 256 before the
  division;
* when a wide array is involved NumPy promotes to the wide dtype and the
  sum is exact;
* array division by a zero element yields 0 (`npdiv`), not an exception;
* array operands of different lengths fail to broadcast (`ValueError`);
* the final `np.uint8(...)` casts the result. -/
def divide_uint (a b : PyVal) : PyRes :=
  if is_uint8_like a && is_uint8_like b then
    match a, b with
    | .intS _, .intS _ | .intS _, .boolS _ | .boolS _, .intS _ | .boolS _, .boolS _ =>
      if scalarVal b = 0 then .error .zeroDivisionError
      else .ok (some (.intS (u8 ((scalarVal a + scalarVal b / 2) / scalarVal b))))
    | .u8A xs, .intS _ | .u8A xs, .boolS _ =>
      .ok (some (.u8A (xs.map fun x => u8 (npdiv (u8 (x + scalarVal b / 2)) (scalarVal b)))))
    | .i64A xs, .intS _ | .i64A xs, .boolS _ =>
      .ok (some (.u8A (xs.map fun x => u8 (npdiv (x + scalarVal b / 2) (scalarVal b)))))
    | .intS _, .u8A ys | .boolS _, .u8A ys =>
      .ok (some (.u8A (ys.map fun y => u8 (npdiv (u8 (scalarVal a + y / 2)) y))))
    | .intS _, .i64A ys | .boolS _, .i64A ys =>
      .ok (some (.u8A (ys.map fun y => u8 (npdiv (scalarVal a + y / 2) y))))
    | .u8A xs, .u8A ys =>
      if xs.length = ys.length then
        .ok (some (.u8A (List.zipWith (fun x y => u8 (npdiv (u8 (x + y / 2)) y)) xs ys)))
      else .error .valueError
    | .u8A xs, .i64A ys | .i64A xs, .u8A ys | .i64A xs, .i64A ys =>
      if xs.length = ys.length then
        .ok (some (.u8A (List.zipWith (fun x y => u8 (npdiv (x + y / 2) y)) xs ys)))
      else .error .valueError
    | _, _ => .error .assertionError
  else .error .assertionError

/-- Round half up of `a / b`, the rounding mode the spec ascribes to
`divide_uint`: the unique `q` with `q ≤ a/b + 1/2 < q + 1`, i.e.
`⌊(2a + b) / (2b)⌋` for positive `b`. -/
def roundHalfUp (a b : Int) : Int := (2 * a + b) / (2 * b)

/-- Modelled from the spec: `skimage/util/uintmath.py` is absent from
`src/` (only its test file `src/skimage/util/tests/test_uintmath.py` is
present); per the spec, its `add_uint` supports the array+array shape
combination with `result[i] = min(a[i] + b[i], 255)` for equal shapes. -/
def add_uint_arrays (xs ys : List Int) : List Int :=
  List.zipWith (fun x y => min (x + y) MAX_UINT) xs ys

/-- Modelled from the spec: `skimage/util/uintmath.py` is absent from
`src/` (only its test file is present); per the spec, its `subtract_uint`
supports the array+array shape combination with
`result[i] = max(a[i] - b[i], 0)` for equal shapes. -/
def subtract_uint_arrays (xs ys : List Int) : List Int :=
  List.zipWith (fun x y => max (x - y) MIN_UINT) xs ys

/-! ### Helper lemmas -/

lemma uint8_intS_iff (n : Int) : is_uint8_like (.intS n) = true ↔ 0 ≤ n ∧ n ≤ 255 := by
  simp [is_uint8_like, anyLtMin, anyGtMax, hasIntDtype, isPyInt, MIN_UINT, MAX_UINT]

lemma uint8_boolS (b : Bool) : is_uint8_like (.boolS b) = true := by
  simp [is_uint8_like, anyLtMin, anyGtMax, hasIntDtype, isPyInt]

lemma uint8_floatS (q : ℚ) : is_uint8_like (.floatS q) = false := by
  simp [is_uint8_like, anyLtMin, anyGtMax, hasIntDtype, isPyInt]

lemma uint8_floatA (qs : List ℚ) : is_uint8_like (.floatA qs) = false := by
  simp [is_uint8_like, anyLtMin, anyGtMax, hasIntDtype, isPyInt]

lemma uint8_u8A_iff (xs : List Int) :
    is_uint8_like (.u8A xs) = true ↔ ∀ x ∈ xs, 0 ≤ x ∧ x ≤ 255 := by
  simp [is_uint8_like, anyLtMin, anyGtMax, hasIntDtype, isPyInt, MIN_UINT, MAX_UINT,
    List.any_eq_true]
  constructor
  · intro h x hx
    have h1 := h.1 x hx
    have h2 := h.2 x hx
    omega
  · intro h
    exact ⟨fun x hx => (h x hx).1, fun x hx => (h x hx).2⟩

lemma uint8_i64A_iff (xs : List Int) :
    is_uint8_like (.i64A xs) = true ↔ ∀ x ∈ xs, 0 ≤ x ∧ x ≤ 255 := by
  simp [is_uint8_like, anyLtMin, anyGtMax, hasIntDtype, isPyInt, MIN_UINT, MAX_UINT,
    List.any_eq_true]
  constructor
  · intro h x hx
    have h1 := h.1 x hx
    have h2 := h.2 x hx
    omega
  · intro h
    exact ⟨fun x hx => (h x hx).1, fun x hx => (h x hx).2⟩

lemma u8_range (n : Int) : 0 ≤ u8 n ∧ u8 n ≤ 255 := by
  unfold u8
  have h1 := Int.emod_nonneg n (by norm_num : (256 : Int) ≠ 0)
  have h2 := Int.emod_lt_of_pos n (by norm_num : (0 : Int) < 256)
  omega

lemma uint8_intS_u8 (n : Int) : is_uint8_like (.intS (u8 n)) = true :=
  (uint8_intS_iff _).mpr (u8_range n)

lemma uint8_u8A_of_mem (xs : List Int) (h : ∀ x ∈ xs, 0 ≤ x ∧ x ≤ 255) :
    is_uint8_like (.u8A xs) = true :=
  (uint8_u8A_iff xs).mpr h

/-- Python 2's `(a + b / 2) / b` on non-negative integers is round half up. -/
lemma div_half (a b : Int) (hb : 0 < b) :
    (a + b / 2) / b = (2 * a + b) / (2 * b) := by
  rcases Int.even_or_odd b with ⟨k, hk⟩ | ⟨k, hk⟩
  · subst hk
    have h2 : (2 : Int) * a + (k + k) = 2 * (a + k) := by ring
    rw [h2, Int.mul_ediv_mul_of_pos _ _ (by norm_num : (0:Int) < 2)]
    congr 1
    omega
  · subst hk
    have hq := Int.ediv_add_emod (a + k) (2 * k + 1)
    have hr1 := Int.emod_nonneg (a + k) (by omega : (2 * k + 1 : Int) ≠ 0)
    have hr2 := Int.emod_lt_of_pos (a + k) (by omega : (0 : Int) < 2 * k + 1)
    set q := (a + k) / (2 * k + 1) with hqdef
    set r := (a + k) % (2 * k + 1) with hrdef
    have hL : (a + (2 * k + 1) / 2) / (2 * k + 1) = q := by
      have h5 : (2 * k + 1 : Int) / 2 = k := by omega
      rw [h5]
    have hR : (2 * a + (2 * k + 1)) / (2 * (2 * k + 1)) = q := by
      have hval : 2 * a + (2 * k + 1) = (2 * r + 1) + (2 * (2 * k + 1)) * q := by
        have hmul : (2 * (2 * k + 1)) * q = 2 * ((2 * k + 1) * q) := by ring
        omega
      rw [hval, Int.add_mul_ediv_left _ _ (by omega : (2 * (2 * k + 1) : Int) ≠ 0),
        Int.ediv_eq_zero_of_lt (by omega) (by omega)]
      omega
    rw [hL, hR]

lemma div_le_255 (a b : Int) (ha : 0 ≤ a) (ha2 : a ≤ 255) (hb : 0 < b) :
    0 ≤ (a + b / 2) / b ∧ (a + b / 2) / b ≤ 255 := by
  refine ⟨Int.ediv_nonneg (by omega) (by omega), ?_⟩
  have h : (a + b / 2) / b < 256 := by
    rw [Int.ediv_lt_iff_lt_mul hb]
    omega
  omega

/-! ### Claim theorems -/

/-- C1: the claim says `multiply_uint` returns `min(a * b, 255)` for every
pair of uint8-like scalars and elementwise for array+scalar.  Evaluating
the code: the non-saturating scalar branch `return npint8(a * b)` raises
`NameError` because `npint8` is an undefined name (a typo for
`np.uint8`), and a zero scalar operand raises `ZeroDivisionError` in
`np.floor(MAX_UINT / b)`; the saturating scalar path and the
array+scalar path (nonzero scalar) do return the clamped product. -/
theorem multiply_uint_scalar_eval :
    multiply_uint (.intS 2) (.intS 3) = .error (.nameError "npint8")
    ∧ multiply_uint (.intS 100) (.intS 3) = .ok (some (.intS 255))
    ∧ multiply_uint (.u8A [0, 1, 2, 3, 4]) (.intS 100) = .ok (some (.u8A [0, 100, 200, 255, 255]))
    ∧ multiply_uint (.intS 100) (.u8A [0, 1, 2, 3, 4]) = .ok (some (.u8A [0, 100, 200, 255, 255]))
    ∧ multiply_uint (.intS 2) (.intS 0) = .error .zeroDivisionError := by
  refine ⟨rfl, rfl, by decide, by decide, rfl⟩

/-- C8: whenever either operand fails the `is_uint8_like` check, all four
operations stop at the leading `assert` with `AssertionError`, before any
arithmetic, and return no result. -/
theorem assert_rejects (a b : PyVal)
    (h : is_uint8_like a = false ∨ is_uint8_like b = false) :
    add_uint a b = .error .assertionError
    ∧ subtract_uint a b = .error .assertionError
    ∧ multiply_uint a b = .error .assertionError
    ∧ divide_uint a b = .error .assertionError := by
  have hg : (is_uint8_like a && is_uint8_like b) = false := by
    rcases h with h | h <;> simp [h]
  exact ⟨by simp [add_uint, hg], by simp [subtract_uint, hg],
    by simp [multiply_uint, hg], by simp [divide_uint, hg]⟩

/-- C8 witness: `256` is not uint8-like, so all four operations reject
the pair `(256, 0)` with `AssertionError`. -/
theorem assert_rejects_witness :
    add_uint (.intS 256) (.intS 0) = .error .assertionError
    ∧ subtract_uint (.intS 256) (.intS 0) = .error .assertionError
    ∧ multiply_uint (.intS 256) (.intS 0) = .error .assertionError
    ∧ divide_uint (.intS 256) (.intS 0) = .error .assertionError :=
  assert_rejects (.intS 256) (.intS 0) (Or.inl (by decide))

/-- C10: the Python booleans `True` and `False` pass `is_uint8_like`
(`isinstance(b, int)` holds for a `bool`), so boolean operands satisfy
the precondition of all four arithmetic operations: none of them fails
with `AssertionError` on boolean operands. -/
theorem bool_operands_pass :
    is_uint8_like (.boolS true) = true
    ∧ is_uint8_like (.boolS false) = true
    ∧ (∀ c d : Bool,
        add_uint (.boolS c) (.boolS d) ≠ .error .assertionError
        ∧ subtract_uint (.boolS c) (.boolS d) ≠ .error .assertionError
        ∧ multiply_uint (.boolS c) (.boolS d) ≠ .error .assertionError
        ∧ divide_uint (.boolS c) (.boolS d) ≠ .error .assertionError) := by
  decide

/-- C3: for scalar+scalar and array+scalar (either order) uint8-like
operands, `add_uint` returns `min(a[i] + b[i], 255)` elementwise, and the
clamp-before-add intermediate `clip(a[i], 0, 255 - b) + b` stays within
`[0, 255]`, so no intermediate overflow occurs. -/
theorem add_uint_clamps (n m : Int) (xs : List Int)
    (hn : 0 ≤ n ∧ n ≤ 255) (hm : 0 ≤ m ∧ m ≤ 255)
    (hxs : ∀ x ∈ xs, 0 ≤ x ∧ x ≤ 255) :
    add_uint (.intS n) (.intS m) = .ok (some (.intS (min (n + m) 255)))
    ∧ add_uint (.u8A xs) (.intS m) = .ok (some (.u8A (xs.map fun x => min (x + m) 255)))
    ∧ add_uint (.i64A xs) (.intS m) = .ok (some (.u8A (xs.map fun x => min (x + m) 255)))
    ∧ add_uint (.intS m) (.u8A xs) = .ok (some (.u8A (xs.map fun x => min (x + m) 255)))
    ∧ add_uint (.intS m) (.i64A xs) = .ok (some (.u8A (xs.map fun x => min (x + m) 255)))
    ∧ (∀ x, 0 ≤ x ∧ x ≤ 255 →
        0 ≤ clip x MIN_UINT (MAX_UINT - m) + m ∧ clip x MIN_UINT (MAX_UINT - m) + m ≤ 255) := by
  have ha := (uint8_intS_iff n).mpr hn
  have hb := (uint8_intS_iff m).mpr hm
  have hu := uint8_u8A_of_mem xs hxs
  have hi := (uint8_i64A_iff xs).mpr hxs
  have helem : ∀ x, 0 ≤ x ∧ x ≤ 255 →
      u8 (clip x MIN_UINT (MAX_UINT - m) + m) = min (x + m) 255 := by
    intro x hx
    simp only [u8, clip, MIN_UINT, MAX_UINT]
    omega
  refine ⟨?_, ?_, ?_, ?_, ?_, ?_⟩
  · simp [add_uint, ha, hb, isscalar, addScalarTo, scalarVal, helem n hn]
  · simp [add_uint, hu, hb, isscalar, addScalarTo, scalarVal]
    exact fun x hx => helem x (hxs x hx)
  · simp [add_uint, hi, hb, isscalar, addScalarTo, scalarVal]
    exact fun x hx => helem x (hxs x hx)
  · simp [add_uint, hu, hb, isscalar, addScalarTo, scalarVal]
    exact fun x hx => helem x (hxs x hx)
  · simp [add_uint, hi, hb, isscalar, addScalarTo, scalarVal]
    exact fun x hx => helem x (hxs x hx)
  · intro x hx
    simp only [clip, MIN_UINT, MAX_UINT]
    omega

/-- C3 witness: `add_uint(150, 150) = 255` and
`add_uint([100,150,200,250], 50) = [150,200,250,255]` in both operand
orders (the repository's own test vectors). -/
theorem add_uint_clamps_witness :
    add_uint (.intS 150) (.intS 150) = .ok (some (.intS 255))
    ∧ add_uint (.i64A [100, 150, 200, 250]) (.intS 50) = .ok (some (.u8A [150, 200, 250, 255]))
    ∧ add_uint (.intS 50) (.i64A [100, 150, 200, 250]) = .ok (some (.u8A [150, 200, 250, 255])) := by
  have h1 := add_uint_clamps 150 150 [] (by decide) (by decide) (by decide)
  have h2 := add_uint_clamps 0 50 [100, 150, 200, 250] (by decide) (by decide) (by decide)
  exact ⟨h1.1.trans (by decide), (h2.2.2.1).trans (by decide), (h2.2.2.2.2.1).trans (by decide)⟩

/-- C4: for scalar+scalar and array+scalar (either order) uint8-like
operands, `subtract_uint` returns `max(minuend - subtrahend, 0)`
elementwise; when the subtrahend exceeds the minuend the element is 0,
never a wrapped-around unsigned value. -/
theorem subtract_uint_clamps (n m : Int) (xs : List Int)
    (hn : 0 ≤ n ∧ n ≤ 255) (hm : 0 ≤ m ∧ m ≤ 255)
    (hxs : ∀ x ∈ xs, 0 ≤ x ∧ x ≤ 255) :
    subtract_uint (.intS n) (.intS m) = .ok (some (.intS (max (n - m) 0)))
    ∧ subtract_uint (.u8A xs) (.intS m) = .ok (some (.u8A (xs.map fun x => max (x - m) 0)))
    ∧ subtract_uint (.i64A xs) (.intS m) = .ok (some (.u8A (xs.map fun x => max (x - m) 0)))
    ∧ subtract_uint (.intS m) (.u8A xs) = .ok (some (.u8A (xs.map fun x => max (m - x) 0)))
    ∧ subtract_uint (.intS m) (.i64A xs) = .ok (some (.u8A (xs.map fun x => max (m - x) 0))) := by
  have ha := (uint8_intS_iff n).mpr hn
  have hb := (uint8_intS_iff m).mpr hm
  have hu := uint8_u8A_of_mem xs hxs
  have hi := (uint8_i64A_iff xs).mpr hxs
  have helem1 : ∀ x, 0 ≤ x ∧ x ≤ 255 →
      u8 (clip x (MIN_UINT + m) MAX_UINT - m) = max (x - m) 0 := by
    intro x hx
    simp only [u8, clip, MIN_UINT, MAX_UINT]
    omega
  have helem2 : ∀ x, 0 ≤ x ∧ x ≤ 255 →
      u8 (m - clip x MIN_UINT (MIN_UINT + m)) = max (m - x) 0 := by
    intro x hx
    simp only [u8, clip, MIN_UINT, MAX_UINT]
    omega
  refine ⟨?_, ?_, ?_, ?_, ?_⟩
  · simp [subtract_uint, ha, hb, isscalar, subScalarFrom, scalarVal, helem1 n hn]
  · simp [subtract_uint, hu, hb, isscalar, subScalarFrom, scalarVal]
    exact fun x hx => helem1 x (hxs x hx)
  · simp [subtract_uint, hi, hb, isscalar, subScalarFrom, scalarVal]
    exact fun x hx => helem1 x (hxs x hx)
  · simp [subtract_uint, hu, hb, isscalar, subFromScalar, scalarVal]
    exact fun x hx => helem2 x (hxs x hx)
  · simp [subtract_uint, hi, hb, isscalar, subFromScalar, scalarVal]
    exact fun x hx => helem2 x (hxs x hx)

/-- C4 witness: `subtract_uint(100, 101) = 0` (not a wrapped value) and
`subtract_uint([0,25,50,75,100], 50) = [0,0,0,25,50]`,
`subtract_uint(50, [0,25,50,75,100]) = [50,25,0,0,0]` (the repository's
own test vectors). -/
theorem subtract_uint_clamps_witness :
    subtract_uint (.intS 100) (.intS 101) = .ok (some (.intS 0))
    ∧ subtract_uint (.i64A [0, 25, 50, 75, 100]) (.intS 50) = .ok (some (.u8A [0, 0, 0, 25, 50]))
    ∧ subtract_uint (.intS 50) (.i64A [0, 25, 50, 75, 100]) = .ok (some (.u8A [50, 25, 0, 0, 0])) := by
  have h1 := subtract_uint_clamps 100 101 [] (by decide) (by decide) (by decide)
  have h2 := subtract_uint_clamps 0 50 [0, 25, 50, 75, 100] (by decide) (by decide) (by decide)
  exact ⟨h1.1.trans (by decide), (h2.2.2.1).trans (by decide), (h2.2.2.2.2).trans (by decide)⟩

lemma zipWith_congr_mem (f g : Int → Int → Int) :
    ∀ (xs ys : List Int), (∀ x ∈ xs, ∀ y ∈ ys, f x y = g x y) →
      List.zipWith f xs ys = List.zipWith g xs ys := by
  intro xs
  induction xs with
  | nil => intro ys _; rfl
  | cons x xs ih =>
    intro ys h
    cases ys with
    | nil => rfl
    | cons y ys =>
      simp only [List.zipWith]
      rw [h x (List.mem_cons_self x xs) y (List.mem_cons_self y ys),
        ih ys (fun a ha b hb => h a (List.mem_cons_of_mem x ha) b (List.mem_cons_of_mem y hb))]

/-- C2: the array+array shape combination of `add_uint`/`subtract_uint`
(modelled from the spec, the implementing `skimage/util/uintmath.py`
being absent from `src/`): elementwise saturating sum and difference,
with the length of either operand, including the spec's concrete example
`subtract_uint([1,2,3,4,5,6],[6,5,4,3,2,1]) == [0,0,0,1,3,5]` and the
add vector of `src/skimage/util/tests/test_uintmath.py`. -/
theorem arrays_elementwise (xs ys : List Int) (h : xs.length = ys.length)
    (i : ℕ) (x y : Int) (hx : xs[i]? = some x) (hy : ys[i]? = some y) :
    (add_uint_arrays xs ys).length = xs.length
    ∧ (subtract_uint_arrays xs ys).length = xs.length
    ∧ (add_uint_arrays xs ys)[i]? = some (min (x + y) 255)
    ∧ (subtract_uint_arrays xs ys)[i]? = some (max (x - y) 0)
    ∧ subtract_uint_arrays [1, 2, 3, 4, 5, 6] [6, 5, 4, 3, 2, 1] = [0, 0, 0, 1, 3, 5]
    ∧ add_uint_arrays [125, 126, 127, 128, 129, 130] [125, 126, 127, 128, 129, 130]
        = [250, 252, 254, 255, 255, 255] := by
  refine ⟨?_, ?_, ?_, ?_, by decide, by decide⟩
  · simp [add_uint_arrays, h]
  · simp [subtract_uint_arrays, h]
  · unfold add_uint_arrays MAX_UINT
    exact List.getElem?_zipWith_eq_some.mpr ⟨x, y, hx, hy, rfl⟩
  · unfold subtract_uint_arrays MIN_UINT
    exact List.getElem?_zipWith_eq_some.mpr ⟨x, y, hx, hy, rfl⟩

/-- C2 witness: the spec's subtraction example, instantiated at index 3
(`max (4 - 3) 0 = 1`). -/
theorem arrays_elementwise_witness :
    (add_uint_arrays [1, 2, 3, 4, 5, 6] [6, 5, 4, 3, 2, 1]).length = 6
    ∧ (subtract_uint_arrays [1, 2, 3, 4, 5, 6] [6, 5, 4, 3, 2, 1]).length = 6
    ∧ (add_uint_arrays [1, 2, 3, 4, 5, 6] [6, 5, 4, 3, 2, 1])[3]? = some 7
    ∧ (subtract_uint_arrays [1, 2, 3, 4, 5, 6] [6, 5, 4, 3, 2, 1])[3]? = some 1
    ∧ subtract_uint_arrays [1, 2, 3, 4, 5, 6] [6, 5, 4, 3, 2, 1] = [0, 0, 0, 1, 3, 5]
    ∧ add_uint_arrays [125, 126, 127, 128, 129, 130] [125, 126, 127, 128, 129, 130]
        = [250, 252, 254, 255, 255, 255] := by
  have h := arrays_elementwise [1, 2, 3, 4, 5, 6] [6, 5, 4, 3, 2, 1] rfl 3 4 3 rfl rfl
  have hl1 : ([1, 2, 3, 4, 5, 6] : List Int).length = 6 := rfl
  exact ⟨hl1 ▸ h.1, hl1 ▸ h.2.1, h.2.2.1.trans (by decide), h.2.2.2.1.trans (by decide),
    h.2.2.2.2.1, h.2.2.2.2.2⟩

/-- The elementwise `(x + m / 2) / m` of `divide_uint`, computed exactly
and cast, is round half up. -/
lemma divElem (x m : Int) (hx : 0 ≤ x) (hx2 : x ≤ 255) (hm : 0 < m) :
    u8 (npdiv (x + m / 2) m) = roundHalfUp x m := by
  have hb := div_le_255 x m hx hx2 hm
  unfold npdiv
  rw [if_neg (by omega)]
  unfold u8 roundHalfUp
  rw [Int.emod_eq_of_lt hb.1 (by omega)]
  exact div_half x m hm

/-- C5 counterexample: for a `uint8`-dtype array operand the intermediate
`a + b / 2` wraps modulo 256, so `divide_uint` does not compute round
half up: `divide_uint(uint8([255]), 254)` yields `[0]` although
round-half-up of `255 / 254` is 1. -/
theorem divide_uint_u8_wraps :
    divide_uint (.u8A [255]) (.intS 254) = .ok (some (.u8A [0]))
    ∧ roundHalfUp 255 254 = 1 := by
  refine ⟨by decide, by decide⟩

/-- C5 amended: `divide_uint` equals round half up (`(a + b/2) / b` in
exact integer arithmetic, i.e. `⌊(2a + b) / (2b)⌋`) for scalar+scalar
operands and for wide-dtype arrays in every shape combination, and for
`uint8`-dtype arrays exactly when the intermediate `a[i] + b/2` stays
within `[0, 255]`. -/
theorem divide_uint_round_half_up (n m : Int) (xs ys : List Int)
    (hn : 0 ≤ n ∧ n ≤ 255) (hm : 1 ≤ m ∧ m ≤ 255)
    (hxs : ∀ x ∈ xs, 0 ≤ x ∧ x ≤ 255) (hys : ∀ y ∈ ys, 1 ≤ y ∧ y ≤ 255) :
    divide_uint (.intS n) (.intS m) = .ok (some (.intS (roundHalfUp n m)))
    ∧ divide_uint (.i64A xs) (.intS m) = .ok (some (.u8A (xs.map fun x => roundHalfUp x m)))
    ∧ divide_uint (.intS n) (.i64A ys) = .ok (some (.u8A (ys.map fun y => roundHalfUp n y)))
    ∧ (xs.length = ys.length →
        divide_uint (.i64A xs) (.i64A ys) = .ok (some (.u8A (List.zipWith roundHalfUp xs ys))))
    ∧ ((∀ x ∈ xs, x + m / 2 ≤ 255) →
        divide_uint (.u8A xs) (.intS m) = .ok (some (.u8A (xs.map fun x => roundHalfUp x m)))) := by
  have ha := (uint8_intS_iff n).mpr ⟨hn.1, hn.2⟩
  have hb := (uint8_intS_iff m).mpr ⟨by omega, hm.2⟩
  have hu := uint8_u8A_of_mem xs (fun x hx => ⟨(hxs x hx).1, (hxs x hx).2⟩)
  have hi := (uint8_i64A_iff xs).mpr hxs
  have hj := (uint8_i64A_iff ys).mpr (fun y hy => ⟨by have := hys y hy; omega, (hys y hy).2⟩)
  have hm0 : scalarVal (.intS m) ≠ 0 := by simp [scalarVal]; omega
  refine ⟨?_, ?_, ?_, ?_, ?_⟩
  · have h := divElem n m hn.1 hn.2 (by omega)
    unfold npdiv at h
    rw [if_neg (by omega)] at h
    simp [divide_uint, ha, hb, scalarVal, if_neg (by omega : ¬ m = 0), h]
  · simp [divide_uint, hi, hb, scalarVal]
    exact fun x hx => divElem x m (hxs x hx).1 (hxs x hx).2 (by omega)
  · simp [divide_uint, ha, hj, scalarVal]
    exact fun y hy => divElem n y hn.1 hn.2 (by have := hys y hy; omega)
  · intro hlen
    simp [divide_uint, hi, hj, hlen]
    exact zipWith_congr_mem _ _ xs ys
      (fun x hx y hy => divElem x y (hxs x hx).1 (hxs x hx).2 (by have := hys y hy; omega))
  · intro hbound
    simp [divide_uint, hu, hb, scalarVal]
    intro x hx
    rw [show u8 (x + m / 2) = x + m / 2 from
      Int.emod_eq_of_lt (by have := hxs x hx; omega) (by have := hbound x hx; omega)]
    exact divElem x m (hxs x hx).1 (hxs x hx).2 (by omega)

/-- C5 witness: `divide_uint(7, 5) = 1` and `divide_uint(8, 5) = 2`
(round half up), plus the wide-array vector of the repository's own
divide test. -/
theorem divide_uint_round_half_up_witness :
    divide_uint (.intS 7) (.intS 5) = .ok (some (.intS 1))
    ∧ divide_uint (.intS 8) (.intS 5) = .ok (some (.intS 2))
    ∧ divide_uint (.i64A [0, 1, 2, 3, 4, 5, 6, 7, 8, 9]) (.intS 3)
        = .ok (some (.u8A [0, 0, 1, 1, 1, 2, 2, 2, 3, 3])) := by
  have h7 := divide_uint_round_half_up 7 5 [] [] (by decide) (by decide)
    (by decide) (by decide)
  have h8 := divide_uint_round_half_up 8 5 [] [] (by decide) (by decide)
    (by decide) (by decide)
  have h3 := divide_uint_round_half_up 0 3 [0, 1, 2, 3, 4, 5, 6, 7, 8, 9] []
    (by decide) (by decide) (by decide) (by decide)
  exact ⟨h7.1.trans (by decide), h8.1.trans (by decide), h3.2.1.trans (by decide)⟩

/-- C6 counterexample: a zero divisor with an array dividend does not
raise: NumPy integer-array division by zero yields 0 with only a
warning, so `divide_uint(uint8([5]), 0)` returns the value `[0]`. -/
theorem divide_uint_zero_array_returns :
    divide_uint (.u8A [5]) (.intS 0) = .ok (some (.u8A [0])) := by decide

/-- C6 amended: only the scalar/scalar call raises `ZeroDivisionError`
on a zero divisor; when either operand is an array, each element divided
by zero becomes 0 (`npdiv`) and a normal value is returned. -/
theorem divide_uint_zero_divisor (n : Int) (xs : List Int)
    (hn : 0 ≤ n ∧ n ≤ 255) (hxs : ∀ x ∈ xs, 0 ≤ x ∧ x ≤ 255) :
    divide_uint (.intS n) (.intS 0) = .error .zeroDivisionError
    ∧ divide_uint (.u8A xs) (.intS 0) = .ok (some (.u8A (xs.map fun _ => 0)))
    ∧ divide_uint (.i64A xs) (.intS 0) = .ok (some (.u8A (xs.map fun _ => 0)))
    ∧ (∀ p : Int, npdiv p 0 = 0)
    ∧ divide_uint (.intS 10) (.u8A [0, 2]) = .ok (some (.u8A [0, 5])) := by
  have ha := (uint8_intS_iff n).mpr hn
  have hb := (uint8_intS_iff 0).mpr (by omega)
  have hu := uint8_u8A_of_mem xs hxs
  have hi := (uint8_i64A_iff xs).mpr hxs
  refine ⟨?_, ?_, ?_, fun p => by simp [npdiv], by decide⟩
  · simp [divide_uint, ha, hb, scalarVal]
  · simp [divide_uint, hu, hb, scalarVal, npdiv, u8]
  · simp [divide_uint, hi, hb, scalarVal, npdiv, u8]

/-- C6 witness: `divide_uint(7, 0)` raises, while `divide_uint([3,4], 0)`
returns `[0, 0]` for both array dtypes. -/
theorem divide_uint_zero_divisor_witness :
    divide_uint (.intS 7) (.intS 0) = .error .zeroDivisionError
    ∧ divide_uint (.u8A [3, 4]) (.intS 0) = .ok (some (.u8A [0, 0]))
    ∧ divide_uint (.i64A [3, 4]) (.intS 0) = .ok (some (.u8A [0, 0]))
    ∧ npdiv 9 0 = 0 := by
  have h := divide_uint_zero_divisor 7 [3, 4] (by decide) (by decide)
  exact ⟨h.1, h.2.1.trans (by decide), h.2.2.1.trans (by decide), h.2.2.2.1 9⟩

/-- C7 counterexample: the empty floating-dtype array (`np.array([])`)
has no element violating the scalar rule, yet `is_uint8_like` returns
`False` for it (the dtype test fails and it is not a Python `int`). -/
theorem is_uint8_like_empty_float :
    is_uint8_like (.floatA []) = false
    ∧ ([] : List ℚ).all (fun q => is_uint8_like (.floatS q)) = true := ⟨rfl, rfl⟩

/-- C7 amended: `is_uint8_like` is true on an integer scalar exactly when
it lies in `[0, 255]`, false on every float scalar (even whole-number
ones), and on an integer-dtype array it is the conjunction of the scalar
rule over the elements; a nonempty float array likewise matches the
elementwise rule (it is rejected), the sole deviation being the empty
float array of the counterexample.  The predicate is a total function
with no side effects. -/
theorem is_uint8_like_spec :
    (∀ n : Int, is_uint8_like (.intS n) = decide (0 ≤ n ∧ n ≤ 255))
    ∧ (∀ q : ℚ, is_uint8_like (.floatS q) = false)
    ∧ (∀ xs : List Int, is_uint8_like (.u8A xs) = xs.all (fun x => is_uint8_like (.intS x)))
    ∧ (∀ xs : List Int, is_uint8_like (.i64A xs) = xs.all (fun x => is_uint8_like (.intS x)))
    ∧ (∀ (q : ℚ) (qs : List ℚ),
        is_uint8_like (.floatA (q :: qs)) = (q :: qs).all (fun r => is_uint8_like (.floatS r)))
    ∧ is_uint8_like (.floatA []) = false := by
  refine ⟨?_, uint8_floatS, ?_, ?_, ?_, rfl⟩
  · intro n
    by_cases h : 0 ≤ n ∧ n ≤ 255
    · rw [(uint8_intS_iff n).mpr h, decide_eq_true h]
    · have h1 : is_uint8_like (.intS n) ≠ true := fun hc => h ((uint8_intS_iff n).mp hc)
      simp only [ne_eq, Bool.not_eq_true] at h1
      rw [h1, decide_eq_false h]
  · intro xs
    rw [Bool.eq_iff_iff, uint8_u8A_iff, List.all_eq_true]
    exact ⟨fun h x hx => (uint8_intS_iff x).mpr (h x hx),
      fun h x hx => (uint8_intS_iff x).mp (h x hx)⟩
  · intro xs
    rw [Bool.eq_iff_iff, uint8_i64A_iff, List.all_eq_true]
    exact ⟨fun h x hx => (uint8_intS_iff x).mpr (h x hx),
      fun h x hx => (uint8_intS_iff x).mp (h x hx)⟩
  · intro q qs
    simp [uint8_floatA, uint8_floatS]

lemma uint8_u8A_map (g : Int → Int) (hg : ∀ x, 0 ≤ g x ∧ g x ≤ 255) (xs : List Int) :
    is_uint8_like (.u8A (xs.map g)) = true := by
  apply uint8_u8A_of_mem
  intro v hv
  rcases List.mem_map.mp hv with ⟨x, _, rfl⟩
  exact hg x

lemma uint8_u8A_zipWith (f : Int → Int → Int) (hf : ∀ x y, 0 ≤ f x y ∧ f x y ≤ 255) :
    ∀ (xs ys : List Int), is_uint8_like (.u8A (List.zipWith f xs ys)) = true := by
  intro xs
  induction xs with
  | nil => intro ys; exact uint8_u8A_of_mem _ (by simp)
  | cons x xs ih =>
    intro ys
    cases ys with
    | nil => exact uint8_u8A_of_mem _ (by simp)
    | cons y ys =>
      apply uint8_u8A_of_mem
      intro v hv
      simp only [List.zipWith, List.mem_cons] at hv
      rcases hv with rfl | hv
      · exact hf x y
      · exact ((uint8_u8A_iff _).mp (ih ys)) v hv

lemma addScalarTo_ok (bv : Int) (a v : PyVal) (h : addScalarTo bv a = some v) :
    is_uint8_like v = true := by
  cases a with
  | intS n =>
    have h2 := Option.some.inj h
    subst h2
    exact uint8_intS_u8 _
  | boolS c =>
    have h2 := Option.some.inj h
    subst h2
    exact uint8_intS_u8 _
  | floatS q => exact Option.noConfusion h
  | u8A xs =>
    have h2 := Option.some.inj h
    subst h2
    exact uint8_u8A_map _ (fun x => u8_range _) xs
  | i64A xs =>
    have h2 := Option.some.inj h
    subst h2
    exact uint8_u8A_map _ (fun x => u8_range _) xs
  | floatA qs => exact Option.noConfusion h

lemma subScalarFrom_ok (bv : Int) (a v : PyVal) (h : subScalarFrom bv a = some v) :
    is_uint8_like v = true := by
  cases a with
  | intS n =>
    have h2 := Option.some.inj h
    subst h2
    exact uint8_intS_u8 _
  | boolS c =>
    have h2 := Option.some.inj h
    subst h2
    exact uint8_intS_u8 _
  | floatS q => exact Option.noConfusion h
  | u8A xs =>
    have h2 := Option.some.inj h
    subst h2
    exact uint8_u8A_map _ (fun x => u8_range _) xs
  | i64A xs =>
    have h2 := Option.some.inj h
    subst h2
    exact uint8_u8A_map _ (fun x => u8_range _) xs
  | floatA qs => exact Option.noConfusion h

lemma subFromScalar_ok (av : Int) (b v : PyVal) (h : subFromScalar av b = some v) :
    is_uint8_like v = true := by
  cases b with
  | intS n =>
    have h2 := Option.some.inj h
    subst h2
    exact uint8_intS_u8 _
  | boolS c =>
    have h2 := Option.some.inj h
    subst h2
    exact uint8_intS_u8 _
  | floatS q => exact Option.noConfusion h
  | u8A xs =>
    have h2 := Option.some.inj h
    subst h2
    exact uint8_u8A_map _ (fun x => u8_range _) xs
  | i64A xs =>
    have h2 := Option.some.inj h
    subst h2
    exact uint8_u8A_map _ (fun x => u8_range _) xs
  | floatA qs => exact Option.noConfusion h

lemma add_uint_ok (a b v : PyVal) (h : add_uint a b = .ok (some v)) :
    is_uint8_like v = true := by
  unfold add_uint at h
  split at h
  · split at h
    · exact addScalarTo_ok _ _ _ (Except.ok.inj h)
    · split at h
      · exact addScalarTo_ok _ _ _ (Except.ok.inj h)
      · exact Option.noConfusion (Except.ok.inj h)
  · exact Except.noConfusion h

lemma subtract_uint_ok (a b v : PyVal) (h : subtract_uint a b = .ok (some v)) :
    is_uint8_like v = true := by
  unfold subtract_uint at h
  split at h
  · split at h
    · exact subScalarFrom_ok _ _ _ (Except.ok.inj h)
    · split at h
      · exact subFromScalar_ok _ _ _ (Except.ok.inj h)
      · exact Option.noConfusion (Except.ok.inj h)
  · exact Except.noConfusion h

lemma mulArrayScalar_ok (xs : List Int) (bv : Int) (v : PyVal)
    (h : mulArrayScalar xs bv = .ok (some v)) : is_uint8_like v = true := by
  unfold mulArrayScalar at h
  split at h
  · exact Except.noConfusion h
  · have h2 := Option.some.inj (Except.ok.inj h)
    subst h2
    refine uint8_u8A_map _ (fun x => ?_) xs
    dsimp only
    split
    · exact u8_range _
    · exact u8_range _

lemma multiply_uint_ok (a b v : PyVal) (h : multiply_uint a b = .ok (some v)) :
    is_uint8_like v = true := by
  unfold multiply_uint at h
  split at h
  · split at h
    · split at h
      · exact Except.noConfusion h
      · split at h
        · have h2 := Option.some.inj (Except.ok.inj h)
          subst h2
          exact uint8_intS_u8 _
        · exact Except.noConfusion h
    · split at h
      · cases b with
        | u8A xs => exact mulArrayScalar_ok _ _ _ h
        | i64A xs => exact mulArrayScalar_ok _ _ _ h
        | intS n => exact Except.noConfusion h
        | boolS c => exact Except.noConfusion h
        | floatS q => exact Except.noConfusion h
        | floatA qs => exact Except.noConfusion h
      · split at h
        · cases a with
          | u8A xs => exact mulArrayScalar_ok _ _ _ h
          | i64A xs => exact mulArrayScalar_ok _ _ _ h
          | intS n => exact Except.noConfusion h
          | boolS c => exact Except.noConfusion h
          | floatS q => exact Except.noConfusion h
          | floatA qs => exact Except.noConfusion h
        · exact Except.noConfusion h
  · exact Except.noConfusion h

lemma divide_uint_ok (a b v : PyVal) (h : divide_uint a b = .ok (some v)) :
    is_uint8_like v = true := by
  unfold divide_uint at h
  split at h
  · split at h <;>
      first
        | exact Except.noConfusion h
        | (split at h <;>
            first
              | exact Except.noConfusion h
              | (have h2 := Option.some.inj (Except.ok.inj h)
                 subst h2
                 first
                   | exact uint8_intS_u8 _
                   | exact uint8_u8A_zipWith _ (fun x y => u8_range _) _ _))
        | (have h2 := Option.some.inj (Except.ok.inj h)
           subst h2
           first
             | exact uint8_intS_u8 _
             | exact uint8_u8A_map _ (fun x => u8_range _) _)
  · exact Except.noConfusion h

/-- C9: whenever one of the four operations returns a result value for
any operands (in particular uint8-like ones, with a positive divisor for
`divide_uint`), that value is itself uint8-like: an integral scalar or
integer array with every element in `[0, 255]` — every returned pixel
passes through the `np.uint8` cast. -/
theorem results_uint8 (a b v : PyVal) :
    (add_uint a b = .ok (some v) → is_uint8_like v = true)
    ∧ (subtract_uint a b = .ok (some v) → is_uint8_like v = true)
    ∧ (multiply_uint a b = .ok (some v) → is_uint8_like v = true)
    ∧ (divide_uint a b = .ok (some v) → is_uint8_like v = true) :=
  ⟨add_uint_ok a b v, subtract_uint_ok a b v, multiply_uint_ok a b v, divide_uint_ok a b v⟩

/-- C9 witness: the saturated sum `add_uint(150, 150) = 255` and the
divide-test output `divide_uint(arange(10), 3)` are uint8-like. -/
theorem results_uint8_witness :
    is_uint8_like (.intS 255) = true
    ∧ is_uint8_like (.u8A [0, 0, 1, 1, 1, 2, 2, 2, 3, 3]) = true :=
  ⟨(results_uint8 (.intS 150) (.intS 150) (.intS 255)).1 (by decide),
   (results_uint8 (.u8A [0, 1, 2, 3, 4, 5, 6, 7, 8, 9]) (.intS 3)
      (.u8A [0, 0, 1, 1, 1, 2, 2, 2, 3, 3])).2.2.2 (by decide)⟩

end Uintmath
